import Mathlib

/-!
Shallow embedding of the FocusLite Pomodoro timer engine
(`src/js/router.js`, module `PomodoroTimer`) and of the localStorage
wrapper it uses for the cycle counter (`src/unnamed/part_000`, module
`Storage`).

The JS module keeps all its state in module-level variables
(`timerState`, `config`, `timerInterval`, plus localStorage). Here that
state is gathered into one record `EngineState`, and every function that
mutates it becomes a state-to-state function. The `setInterval` handle
`timerInterval` is modelled by the boolean `intervalActive` (the module
maintains at most one live interval); the anonymous `setTimeout`
scheduled by `handleTimerComplete` is modelled by a count
`pendingAuto` of outstanding one-shot auto-switch timeouts. A
scheduler-delivered tick (`schedTick`) runs the `tick` callback exactly
when the interval is live, which is how `setInterval`/`clearInterval`
behave. DOM updates, console logging and notification playback have no
effect on the modelled state and are dropped.
-/

/-- A JSON value, as produced by `JSON.parse` in `Storage.loadData`.
Scalar values suffice for the keys modelled here; the cycles slot is
meant to hold a number. -/
inductive JVal where
  | num (n : Int)
  | str (s : String)
  | boolVal (b : Bool)
  | jnull
deriving DecidableEq, Repr

/-- A raw string sitting in a localStorage slot: `JSON.parse` either
yields a value or throws a SyntaxError. -/
inductive StoredString where
  | parses (v : JVal)
  | malformed
deriving DecidableEq, Repr

/-- `JSON.parse` on a stored string (`Storage.loadData`, the line
`const parsedData = JSON.parse(data)`): success or a thrown error. -/
def jsonParse : StoredString → Except String JVal
  | .parses v => .ok v
  | .malformed => .error "SyntaxError"

/-- `Storage.loadData(key, defaultValue)` (src/unnamed/part_000 lines
44-59): `localStorage.getItem` returning `null` (slot `none`) yields the
default; otherwise the stored string is parsed, and the surrounding
`try/catch` turns a parse error into the default as well. -/
def loadData (slot : Option StoredString) (defaultValue : JVal) : JVal :=
  match slot with
  | none => defaultValue
  | some data =>
    match jsonParse data with
    | .ok parsedData => parsedData
    | .error _ => defaultValue

/-- `Storage.loadCycles()` (src/unnamed/part_000 lines 125-127):
`loadData(STORAGE_KEYS.CYCLES, 0)`. -/
def loadCycles (slot : Option StoredString) : JVal :=
  loadData slot (.num 0)

/-- `Storage.saveCycles(cycles)`: `saveData` stores
`JSON.stringify(cycles)`, a string that parses back to that number. -/
def saveCycles (cycles : Int) : StoredString :=
  .parses (.num cycles)

/-- The timer configuration object `config` of `PomodoroTimer`
(src/js/router.js lines 359-364). -/
structure Config where
  focusTime : Int
  breakTime : Int
  autoSwitch : Bool
  soundEnabled : Bool
deriving DecidableEq, Repr

/-- The whole mutable state of the `PomodoroTimer` module: the
`timerState` record (lines 349-356), the `config` record, the
`timerInterval` handle (as `intervalActive`), the outstanding
auto-switch timeouts, and the two localStorage slots the module writes
(`focuslite_cycles`, `focuslite_timer_config`). -/
structure EngineState where
  isRunning : Bool
  isPaused : Bool
  currentMode : String
  timeRemaining : Int
  totalTime : Int
  cycles : Int
  config : Config
  intervalActive : Bool
  pendingAuto : Nat
  storedCycles : Option StoredString
  storedConfig : Option Config
deriving DecidableEq, Repr

/-- The module-level initial state (src/js/router.js lines 349-364):
mode focus, 25 minutes, nothing running, default config, empty
storage. -/
def initialState : EngineState :=
  { isRunning := false
    isPaused := false
    currentMode := "focus"
    timeRemaining := 25 * 60
    totalTime := 25 * 60
    cycles := 0
    config :=
      { focusTime := 25 * 60
        breakTime := 5 * 60
        autoSwitch := true
        soundEnabled := true }
    intervalActive := false
    pendingAuto := 0
    storedCycles := none
    storedConfig := none }

/-- `startTimer()` (lines 464-480): no-op if already running, else set
running, clear paused, and `setInterval` the tick callback. -/
def startTimer (s : EngineState) : EngineState :=
  if s.isRunning then s
  else { s with isRunning := true, isPaused := false, intervalActive := true }

/-- `pauseTimer()` (lines 485-496): no-op unless running and not
paused, else set paused and `clearInterval`. -/
def pauseTimer (s : EngineState) : EngineState :=
  if !s.isRunning || s.isPaused then s
  else { s with isPaused := true, intervalActive := false }

/-- `resumeTimer()` (lines 501-506): no-op unless paused, else clear
the paused flag and call `startTimer()`. -/
def resumeTimer (s : EngineState) : EngineState :=
  if !s.isPaused then s
  else startTimer { s with isPaused := false }

/-- `resetTimer()` (lines 511-528): `clearInterval` if running, then
clear both flags and restore `timeRemaining` to `totalTime`. -/
def resetTimer (s : EngineState) : EngineState :=
  let s1 := if s.isRunning then { s with intervalActive := false } else s
  { s1 with isRunning := false, isPaused := false, timeRemaining := s1.totalTime }

/-- `saveCyclesToStorage()` (lines 774-780): writes
`Storage.saveCycles(timerState.cycles)` to the cycles slot. -/
def saveCyclesToStorage (s : EngineState) : EngineState :=
  { s with storedCycles := some (saveCycles s.cycles) }

/-- `handleTimerComplete()` (lines 546-578): `clearInterval`, clear both
flags, notify (no modelled effect), increment and persist the cycle
count when in focus mode, and when `config.autoSwitch` schedule a
one-shot 2-second timeout that will switch mode and restart. -/
def handleTimerComplete (s : EngineState) : EngineState :=
  let s1 := { s with intervalActive := false, isRunning := false, isPaused := false }
  let s2 :=
    if s1.currentMode = "focus" then
      saveCyclesToStorage { s1 with cycles := s1.cycles + 1 }
    else s1
  if s2.config.autoSwitch then { s2 with pendingAuto := s2.pendingAuto + 1 } else s2

/-- `tick()` (lines 533-541): decrement while time remains, otherwise
run completion handling. -/
def tick (s : EngineState) : EngineState :=
  if s.timeRemaining > 0 then { s with timeRemaining := s.timeRemaining - 1 }
  else handleTimerComplete s

/-- One scheduler firing: `setInterval` invokes the `tick` callback
exactly while the interval has not been cleared. -/
def schedTick (s : EngineState) : EngineState :=
  if s.intervalActive then tick s else s

/-- `n` successive scheduler firings. -/
def schedTicks : Nat → EngineState → EngineState
  | 0, s => s
  | n + 1, s => schedTicks n (schedTick s)

/-- `switchMode(mode)` (lines 584-608): no-op if the mode is unchanged;
else stop the timer if running, install the new mode and its configured
duration. -/
def switchMode (mode : String) (s : EngineState) : EngineState :=
  if mode = s.currentMode then s
  else
    let s1 :=
      if s.isRunning then
        { s with intervalActive := false, isRunning := false, isPaused := false }
      else s
    let total := if mode = "focus" then s1.config.focusTime else s1.config.breakTime
    { s1 with currentMode := mode, totalTime := total, timeRemaining := total }

/-- A partial configuration object passed to `updateConfig`;
`Object.assign` keeps the old value for every absent field. -/
structure ConfigPatch where
  focusTime : Option Int := none
  breakTime : Option Int := none
  autoSwitch : Option Bool := none
  soundEnabled : Option Bool := none

/-- `Object.assign(config, newConfig)`. -/
def mergeConfig (c : Config) (p : ConfigPatch) : Config :=
  { focusTime := p.focusTime.getD c.focusTime
    breakTime := p.breakTime.getD c.breakTime
    autoSwitch := p.autoSwitch.getD c.autoSwitch
    soundEnabled := p.soundEnabled.getD c.soundEnabled }

/-- `updateConfig(newConfig)` (lines 802-816): merge the patch into
`config`, persist it, and when the timer is not running recompute
`totalTime`/`timeRemaining` for the current mode. -/
def updateConfig (p : ConfigPatch) (s : EngineState) : EngineState :=
  let c := mergeConfig s.config p
  let s1 := { s with config := c, storedConfig := some c }
  if !s1.isRunning then
    let total := if s1.currentMode = "focus" then c.focusTime else c.breakTime
    { s1 with totalTime := total, timeRemaining := total }
  else s1

/-- The firing of one outstanding auto-switch timeout (the `setTimeout`
body at lines 571-574): `switchMode` to the other mode, then
`startTimer`. -/
def fireAutoSwitch (s : EngineState) : EngineState :=
  if s.pendingAuto > 0 then
    let s1 := { s with pendingAuto := s.pendingAuto - 1 }
    startTimer
      (switchMode (if s1.currentMode = "focus" then "break" else "focus") s1)
  else s

/-- One public operation of the engine (the API returned at
src/js/router.js lines 839-860, plus the internal tick, completion and
auto-switch entry points that the scheduler invokes). -/
inductive Op where
  | start
  | pause
  | resume
  | reset
  | tickOp
  | schedTickOp
  | complete
  | fireAuto
  | switch (m : String)
  | update (p : ConfigPatch)

/-- Apply one operation to a state. -/
def applyOp : Op → EngineState → EngineState
  | .start => startTimer
  | .pause => pauseTimer
  | .resume => resumeTimer
  | .reset => resetTimer
  | .tickOp => tick
  | .schedTickOp => schedTick
  | .complete => handleTimerComplete
  | .fireAuto => fireAutoSwitch
  | .switch m => switchMode m
  | .update p => updateConfig p

/-- States reachable from an initial state (both flags down) by any
sequence of operations. -/
inductive Reachable : EngineState → Prop where
  | init (s : EngineState) :
      s.isRunning = false → s.isPaused = false → Reachable s
  | step (o : Op) (s : EngineState) : Reachable s → Reachable (applyOp o s)

/-- The flag invariant: paused implies running. -/
def FlagInv (s : EngineState) : Prop := s.isPaused = true → s.isRunning = true

lemma flagInv_startTimer (s : EngineState) (h : FlagInv s) :
    FlagInv (startTimer s) := by
  unfold FlagInv startTimer at *
  split <;> simp_all

lemma flagInv_pauseTimer (s : EngineState) (h : FlagInv s) :
    FlagInv (pauseTimer s) := by
  unfold FlagInv pauseTimer at *
  split <;> simp_all

lemma flagInv_resumeTimer (s : EngineState) (h : FlagInv s) :
    FlagInv (resumeTimer s) := by
  unfold FlagInv resumeTimer startTimer at *
  split <;> simp_all

lemma flagInv_resetTimer (s : EngineState) (h : FlagInv s) :
    FlagInv (resetTimer s) := by
  unfold FlagInv resetTimer at *
  split <;> simp_all

lemma handleTimerComplete_isPaused (s : EngineState) :
    (handleTimerComplete s).isPaused = false := by
  simp only [handleTimerComplete, saveCyclesToStorage]
  split <;> split <;> rfl

lemma handleTimerComplete_isRunning (s : EngineState) :
    (handleTimerComplete s).isRunning = false := by
  simp only [handleTimerComplete, saveCyclesToStorage]
  split <;> split <;> rfl

lemma handleTimerComplete_timeRemaining (s : EngineState) :
    (handleTimerComplete s).timeRemaining = s.timeRemaining := by
  simp only [handleTimerComplete, saveCyclesToStorage]
  split <;> split <;> rfl

lemma handleTimerComplete_intervalActive (s : EngineState) :
    (handleTimerComplete s).intervalActive = false := by
  simp only [handleTimerComplete, saveCyclesToStorage]
  split <;> split <;> rfl

lemma flagInv_handleTimerComplete (s : EngineState) (h : FlagInv s) :
    FlagInv (handleTimerComplete s) := by
  intro hp
  rw [handleTimerComplete_isPaused] at hp
  cases hp

lemma flagInv_tick (s : EngineState) (h : FlagInv s) : FlagInv (tick s) := by
  unfold tick
  split
  · unfold FlagInv at *
    simp_all
  · exact flagInv_handleTimerComplete s h

lemma flagInv_schedTick (s : EngineState) (h : FlagInv s) :
    FlagInv (schedTick s) := by
  unfold schedTick
  split
  · exact flagInv_tick s h
  · exact h

lemma flagInv_switchMode (m : String) (s : EngineState) (h : FlagInv s) :
    FlagInv (switchMode m s) := by
  unfold FlagInv switchMode at *
  split
  · exact h
  · split <;> simp_all

lemma updateConfig_isPaused (p : ConfigPatch) (s : EngineState) :
    (updateConfig p s).isPaused = s.isPaused := by
  simp only [updateConfig]
  split <;> rfl

lemma updateConfig_isRunning (p : ConfigPatch) (s : EngineState) :
    (updateConfig p s).isRunning = s.isRunning := by
  simp only [updateConfig]
  split <;> rfl

lemma flagInv_updateConfig (p : ConfigPatch) (s : EngineState) (h : FlagInv s) :
    FlagInv (updateConfig p s) := by
  intro hp
  rw [updateConfig_isPaused] at hp
  rw [updateConfig_isRunning]
  exact h hp

lemma flagInv_fireAutoSwitch (s : EngineState) (h : FlagInv s) :
    FlagInv (fireAutoSwitch s) := by
  unfold fireAutoSwitch
  split
  · exact flagInv_startTimer _ (flagInv_switchMode _ _ h)
  · exact h

lemma flagInv_applyOp (o : Op) (s : EngineState) (h : FlagInv s) :
    FlagInv (applyOp o s) := by
  cases o with
  | start => exact flagInv_startTimer s h
  | pause => exact flagInv_pauseTimer s h
  | resume => exact flagInv_resumeTimer s h
  | reset => exact flagInv_resetTimer s h
  | tickOp => exact flagInv_tick s h
  | schedTickOp => exact flagInv_schedTick s h
  | complete => exact flagInv_handleTimerComplete s h
  | fireAuto => exact flagInv_fireAutoSwitch s h
  | switch m => exact flagInv_switchMode m s h
  | update p => exact flagInv_updateConfig p s h

lemma flagInv_of_reachable {s : EngineState} (h : Reachable s) : FlagInv s := by
  induction h with
  | init s hr hp => intro hp2; rw [hp] at hp2; cases hp2
  | step o s _ ih => exact flagInv_applyOp o s ih

lemma schedTicks_inactive (n : Nat) (s : EngineState)
    (h : s.intervalActive = false) : schedTicks n s = s := by
  induction n with
  | zero => rfl
  | succ n ih =>
    rw [schedTicks, schedTick, if_neg (by simp [h])]
    exact ih

/-- C4: completing a countdown in focus mode increments `cycles` by
exactly 1 and persists the new value to the cycles storage slot;
completing in any other mode (break) leaves both the counter and the
slot untouched. -/
theorem C4_complete_counts_focus_cycles (s : EngineState) :
    (handleTimerComplete s).cycles =
      (if s.currentMode = "focus" then s.cycles + 1 else s.cycles) ∧
    (handleTimerComplete s).storedCycles =
      (if s.currentMode = "focus" then some (saveCycles (s.cycles + 1))
       else s.storedCycles) := by
  simp only [handleTimerComplete, saveCyclesToStorage]
  split_ifs <;> simp_all

/-- C6: `resetTimer` always restores `timeRemaining` to `totalTime` and
clears both flags, while leaving the mode, the total and the cycle
count unchanged, whatever the prior state. -/
theorem C6_reset_restores_full_time (s : EngineState) :
    (resetTimer s).timeRemaining = (resetTimer s).totalTime ∧
    (resetTimer s).totalTime = s.totalTime ∧
    (resetTimer s).isRunning = false ∧
    (resetTimer s).isPaused = false ∧
    (resetTimer s).currentMode = s.currentMode ∧
    (resetTimer s).cycles = s.cycles := by
  simp only [resetTimer]
  split_ifs <;> simp

/-- C7: `pauseTimer` is a no-op unless running and unpaused; when it
applies it only raises the paused flag and cancels the interval,
leaving every other field (running, time, mode, total, cycles)
unchanged. -/
theorem C7_pause_effect (s : EngineState) :
    pauseTimer s =
      if s.isRunning = true ∧ s.isPaused = false then
        { s with isPaused := true, intervalActive := false }
      else s := by
  cases hR : s.isRunning <;> cases hP : s.isPaused <;>
    simp [pauseTimer, hR, hP]

/-- C8: `startTimer` and `pauseTimer` are idempotent: a second
consecutive call leaves the state produced by the first one
unchanged. -/
theorem C8_start_pause_idempotent (s : EngineState) :
    startTimer (startTimer s) = startTimer s ∧
    pauseTimer (pauseTimer s) = pauseTimer s := by
  cases hR : s.isRunning <;> cases hP : s.isPaused <;>
    simp [startTimer, pauseTimer, hR, hP]

/-- C9 counterexample: when the cycles slot holds a validly persisted
value of a non-number type, `loadCycles` returns that value unchanged,
not 0 — the claim that it returns 0 for any non-number stored value is
false. -/
theorem C9_counterexample_string_slot :
    loadCycles (some (.parses (.str "oops"))) = .str "oops" ∧
    JVal.str "oops" ≠ .num 0 := by decide

/-- C9 amended: `loadCycles` is a total function (the `try/catch` in
`loadData` means it never raises) returning 0 exactly when the slot is
missing or its raw string fails to parse; a validly persisted value of
any type, number or not, is returned as-is (the engine-side caller
`loadCyclesFromStorage` is the place that discards non-numbers). -/
theorem C9_load_cycles_total (slot : Option StoredString) :
    loadCycles slot =
      (match slot with
       | none => JVal.num 0
       | some .malformed => JVal.num 0
       | some (.parses v) => v) := by
  cases slot with
  | none => rfl
  | some d => cases d <;> rfl

lemma tick_decrement (s : EngineState) (h : s.timeRemaining > 0) :
    tick s = { s with timeRemaining := s.timeRemaining - 1 } := by
  simp [tick, h]

/-- C3: while the interval is live and the timer runs unpaused,
delivering `n` scheduler ticks decreases `timeRemaining` by exactly
`n`, clamped below at 0 (when the countdown bottoms out mid-sequence,
the completing tick clears the interval and the remaining firings are
no-ops). -/
theorem C3_ticks_decrement_clamped (s : EngineState) (n : Nat)
    (hR : s.isRunning = true) (hP : s.isPaused = false)
    (hI : s.intervalActive = true) (hT : 0 ≤ s.timeRemaining) :
    (schedTicks n s).timeRemaining = max (s.timeRemaining - (n : Int)) 0 := by
  induction n generalizing s with
  | zero =>
    simp only [schedTicks]
    omega
  | succ n ih =>
    rw [schedTicks, schedTick, if_pos hI]
    by_cases h0 : s.timeRemaining > 0
    · have h1 : (0 : Int) ≤
          ({ s with timeRemaining := s.timeRemaining - 1 } : EngineState).timeRemaining := by
        show (0 : Int) ≤ s.timeRemaining - 1
        omega
      have h2 := ih { s with timeRemaining := s.timeRemaining - 1 } hR hP hI h1
      rw [tick_decrement s h0, h2]
      show max (s.timeRemaining - 1 - (n : Int)) 0 =
        max (s.timeRemaining - ((n + 1 : Nat) : Int)) 0
      push_cast
      omega
    · have hz : s.timeRemaining = 0 := by omega
      rw [tick, if_neg h0,
        schedTicks_inactive n _ (handleTimerComplete_intervalActive s),
        handleTimerComplete_timeRemaining]
      omega

/-- C3 witness: a freshly started engine (25-minute focus countdown)
loses exactly 3 seconds over 3 delivered ticks. -/
theorem C3_witness :
    (schedTicks 3 (startTimer initialState)).timeRemaining =
      max ((startTimer initialState).timeRemaining - ((3 : Nat) : Int)) 0 :=
  C3_ticks_decrement_clamped (startTimer initialState) 3 rfl rfl rfl (by decide)

/-- C5: on any reachable state, `switchMode` to the other mode installs
that mode's configured duration as both `totalTime` and
`timeRemaining` and drops both flags; `switchMode` to the current mode
is a no-op. -/
theorem C5_switchMode_installs_duration (s : EngineState) (m : String)
    (hs : Reachable s) (hm : m = "focus" ∨ m = "break") :
    if m = s.currentMode then switchMode m s = s
    else
      (switchMode m s).timeRemaining = (switchMode m s).totalTime ∧
      (switchMode m s).totalTime =
        (if m = "focus" then s.config.focusTime else s.config.breakTime) ∧
      (switchMode m s).isRunning = false ∧
      (switchMode m s).isPaused = false := by
  split
  · rename_i heq
    simp [switchMode, heq]
  · rename_i hne
    have hflag := flagInv_of_reachable hs
    simp only [switchMode, if_neg hne]
    cases hRun : s.isRunning with
    | true => simp
    | false =>
      have hPau : s.isPaused = false := by
        cases hp : s.isPaused
        · rfl
        · rw [hflag hp] at hRun; cases hRun
      simp [hPau, hRun]

/-- C5 witness: from the initial (reachable) state in focus mode,
switching to break installs the 5-minute break duration with both
flags down. -/
theorem C5_witness :
    (switchMode "break" initialState).timeRemaining =
      (switchMode "break" initialState).totalTime ∧
    (switchMode "break" initialState).totalTime =
      (if "break" = "focus" then initialState.config.focusTime
       else initialState.config.breakTime) ∧
    (switchMode "break" initialState).isRunning = false ∧
    (switchMode "break" initialState).isPaused = false := by
  have h := C5_switchMode_installs_duration initialState "break"
    (Reachable.init initialState rfl rfl) (Or.inr rfl)
  rw [if_neg (by decide)] at h
  exact h

/-- C10: in every state reachable from an initial state (both flags
down) by any sequence of the engine's operations, a raised paused flag
implies a raised running flag: `running = false ∧ paused = true` never
occurs. -/
theorem C10_paused_implies_running (s : EngineState) (h : Reachable s)
    (hp : s.isPaused = true) : s.isRunning = true :=
  flagInv_of_reachable h hp

/-- C10 witness: the reachable state start-then-pause is paused and
still running. -/
theorem C10_witness :
    (applyOp .pause (applyOp .start initialState)).isRunning = true :=
  C10_paused_implies_running _
    (Reachable.step .pause _ (Reachable.step .start _
      (Reachable.init initialState rfl rfl)))
    (by decide)

/-- The state after `start()` in Scenario C: running, unpaused, live
interval, full 25-minute focus countdown. -/
def scenarioCStarted : EngineState := startTimer initialState

/-- Scenario C up to the `resume()` call: 2 delivered ticks, `pause()`,
3 scheduler firings (no-ops, the interval is cleared), `resume()`. -/
def scenarioCResumed : EngineState :=
  resumeTimer (schedTicks 3 (pauseTimer (schedTicks 2 scenarioCStarted)))

/-- C1, behavior at the failing input: after `resume()` the paused flag
is down and the running flag up, but `startTimer()` returned early
(running was still true), so the interval was never rescheduled; the 3
subsequent scheduler firings deliver nothing and the countdown ends at
`totalSeconds - 2`, not `totalSeconds - 5`. -/
theorem C1_resume_never_reschedules :
    scenarioCResumed.isPaused = false ∧
    scenarioCResumed.isRunning = true ∧
    scenarioCResumed.intervalActive = false ∧
    (schedTicks 3 scenarioCResumed).timeRemaining = 25 * 60 - 2 ∧
    (25 * 60 - 2 : Int) ≠ 25 * 60 - 5 := by decide

/-- The engine configured as in Scenario A: `updateConfig` with
`{focusSeconds: 5, breakSeconds: 2, autoSwitch: false}` on the fresh
engine (not running, so the focus duration 5 is installed). -/
def scenarioAState : EngineState :=
  updateConfig
    { focusTime := some 5, breakTime := some 2, autoSwitch := some false }
    initialState

/-- C2 counterexample: with `focusSeconds = 5`, after `start()` and
exactly 5 delivered ticks the countdown reads 0 but the engine is
still running and no cycle has completed — completion only happens on
the tick that observes 0. The claimed `running = false ∧
cyclesCompleted = 1` is false here. -/
theorem C2_counterexample_five_ticks :
    (schedTicks 5 (startTimer scenarioAState)).timeRemaining = 0 ∧
    (schedTicks 5 (startTimer scenarioAState)).isRunning = true ∧
    (schedTicks 5 (startTimer scenarioAState)).cycles = 0 ∧
    ¬((schedTicks 5 (startTimer scenarioAState)).isRunning = false ∧
      (schedTicks 5 (startTimer scenarioAState)).cycles = 1) := by decide

/-- C2 amended: one further tick (6 in all — `focusSeconds + 1`, since
`tick()` decrements on the first 5 and completes on the one that sees
0) produces exactly the claimed final state: countdown 0, stopped,
one cycle completed and persisted, still in focus mode, and no
auto-switch scheduled. -/
theorem C2_six_ticks_complete :
    (schedTicks 6 (startTimer scenarioAState)).timeRemaining = 0 ∧
    (schedTicks 6 (startTimer scenarioAState)).isRunning = false ∧
    (schedTicks 6 (startTimer scenarioAState)).isPaused = false ∧
    (schedTicks 6 (startTimer scenarioAState)).cycles = 1 ∧
    (schedTicks 6 (startTimer scenarioAState)).storedCycles = some (saveCycles 1) ∧
    (schedTicks 6 (startTimer scenarioAState)).currentMode = "focus" ∧
    (schedTicks 6 (startTimer scenarioAState)).pendingAuto = 0 := by decide
